import Mathlib

/-
Verification of the notebook1 repository: a small RAG demo script
(ai_agent_llama3_rag_tool / test1.ipynb / test2.ipynb).  We shallowly embed
the script's data model (JSON values, HTTP requests and responses, a toy
filesystem) and its operations (the get_weather tool in both variants, the
document-writing setup loop, and the straight-line script pipelines), and
prove the specified properties about them.
-/

set_option autoImplicit false
set_option linter.unusedVariables false

namespace Notebook1

/-- JSON values as returned by response.json(), and equally the Python
values (strings, numbers, dicts) that the script manipulates.  Numbers are
modelled as rationals: the script only passes them through, never does
float arithmetic. -/
inductive Json where
  | null : Json
  | bool (b : Bool) : Json
  | num (q : ℚ) : Json
  | str (s : String) : Json
  | obj (fields : List (String × Json)) : Json
deriving Repr

/-- Python exceptions that the embedded fragments can raise. -/
inductive PyError where
  | attributeError (msg : String)
deriving Repr, DecidableEq

/-- Python dict.get(k, default): total on dicts, raises AttributeError on
any non-dict value (e.g. `5 .get(k, d)` in Python). -/
def Json.get? (j : Json) (k : String) (default : Json) : Except PyError Json :=
  match j with
  | .obj fields => .ok ((fields.lookup k).getD default)
  | _ => .error (.attributeError "object has no attribute get")

/-- A query-string parameter value: the script passes numbers (latitude,
longitude) and strings (the remaining parameters). -/
inductive ParamValue where
  | num (q : ℚ) : ParamValue
  | str (s : String) : ParamValue
deriving Repr, DecidableEq

/-- An HTTP request as issued by requests.get: method, URL and the params
dict in the order the source writes it. -/
structure HttpRequest where
  method : String
  url : String
  params : List (String × ParamValue)
deriving Repr, DecidableEq

/-- An HTTP response: status code and parsed JSON body. -/
structure HttpResponse where
  status_code : ℕ
  body : Json
deriving Repr

/-- The request issued by get_weather(city) in the main script and
test1.ipynb: the city argument is never consulted; latitude and longitude
are the hardcoded Paris coordinates. -/
def getWeatherRequest (city : String) : HttpRequest :=
  { method := "GET"
    url := "https://api.open-meteo.com/v1/forecast"
    params := [
      ("latitude", ParamValue.num 48.8566),
      ("longitude", ParamValue.num 2.3522),
      ("current", ParamValue.str "temperature_2m,wind_speed_10m"),
      ("temperature_unit", ParamValue.str "celsius"),
      ("windspeed_unit", ParamValue.str "kmh")] }

/-- The error marker dict, key "error" mapped to "Failed to fetch weather
data.", returned by the main script's get_weather on a non-200 status. -/
def errorMarker : Json :=
  Json.obj [("error", Json.str "Failed to fetch weather data.")]

/-- What get_weather does with the HTTP response (main script and
test1.ipynb): non-200 yields the error marker dict without touching the
body; 200 yields response.json().get of "current" with an empty dict as
the default. -/
def get_weather_result (response : HttpResponse) : Except PyError Json :=
  if response.status_code ≠ 200 then
    .ok errorMarker
  else
    response.body.get? "current" (Json.obj [])

/-- get_weather(city) from the main script and test1.ipynb, run against an
oracle mapping each request to the server's response.  Returns the Python
result together with the list of HTTP requests issued, in order. -/
def get_weather (city : String) (http : HttpRequest → HttpResponse) :
    Except PyError Json × List HttpRequest :=
  let req := getWeatherRequest city
  let response := http req
  (get_weather_result response, [req])

/-- The request issued by get_weather(lat, lon) in test2.ipynb: latitude
and longitude are the arguments, the remaining parameters coincide with the
main script's. -/
def getWeatherRequestT2 (lat lon : ℚ) : HttpRequest :=
  { method := "GET"
    url := "https://api.open-meteo.com/v1/forecast"
    params := [
      ("latitude", ParamValue.num lat),
      ("longitude", ParamValue.num lon),
      ("current", ParamValue.str "temperature_2m,wind_speed_10m"),
      ("temperature_unit", ParamValue.str "celsius"),
      ("windspeed_unit", ParamValue.str "kmh")] }

/-- The error marker dict of test2.ipynb, key "error" mapped to
"API failed.". -/
def errorMarkerT2 : Json := Json.obj [("error", Json.str "API failed.")]

/-- What test2's get_weather does with the HTTP response. -/
def get_weather_result_T2 (response : HttpResponse) : Except PyError Json :=
  if response.status_code ≠ 200 then
    .ok errorMarkerT2
  else
    response.body.get? "current" (Json.obj [])

/-- get_weather(lat, lon) from test2.ipynb, with its request trace. -/
def get_weather_T2 (lat lon : ℚ) (http : HttpRequest → HttpResponse) :
    Except PyError Json × List HttpRequest :=
  let req := getWeatherRequestT2 lat lon
  let response := http req
  (get_weather_result_T2 response, [req])

/-- The first travel-tip literal. -/
def tip0 : String := "In Paris, it's best to carry an umbrella in spring."

/-- The second travel-tip literal. -/
def tip1 : String := "Always check the local metro schedule to avoid delays."

/-- The third travel-tip literal. -/
def tip2 : String :=
  "Wear comfortable walking shoes when visiting tourist spots in Paris."

/-- The three literal travel-tip strings of the rag_docs list. -/
def rag_docs : List String := [tip0, tip1, tip2]

/-- The f-string rag_docs/doc_i.txt for index i. -/
def docPath (i : ℕ) : String := "rag_docs/doc_" ++ toString i ++ ".txt"

/-- A toy filesystem: the directories that exist and the files as a
path-to-contents association list. -/
structure Fs where
  dirs : List String
  files : List (String × String)
deriving Repr, DecidableEq

/-- os.makedirs(d, exist_ok=True): creates the directory when missing and
does nothing when it already exists. -/
def makedirs (fs : Fs) (d : String) : Fs :=
  if d ∈ fs.dirs then fs else { fs with dirs := d :: fs.dirs }

/-- Update the file list at a path, overwriting an existing entry in place
or appending a new one at the end. -/
def setFile : List (String × String) → String → String → List (String × String)
  | [], p, c => [(p, c)]
  | (q, d) :: rest, p, c =>
    if q = p then (p, c) :: rest else (q, d) :: setFile rest p c

/-- The effect of open(p, "w") followed by f.write(c). -/
def writeFile (fs : Fs) (p c : String) : Fs :=
  { fs with files := setFile fs.files p c }

/-- The document-writing loop over enumerate(rag_docs): threads the
filesystem and records each (path, contents) write in order. -/
def writeDocs (fs : Fs) : List (ℕ × String) → Fs × List (String × String)
  | [] => (fs, [])
  | (i, t) :: rest =>
    let fs1 := writeFile fs (docPath i) t
    let r := writeDocs fs1 rest
    (r.1, (docPath i, t) :: r.2)

/-- The setup of Step 2: os.makedirs("rag_docs", exist_ok=True) followed by
the write loop over enumerate(rag_docs).  Returns the final filesystem and
the ordered list of file writes performed. -/
def setupStep (fs : Fs) : Fs × List (String × String) :=
  writeDocs (makedirs fs "rag_docs") rag_docs.enum

/-- External interactions of the scripts, at the granularity of the spec:
an embed-and-store call into the vector database, an HTTP GET, and a
prompt-plus-generate call into the language model. -/
inductive Event where
  | embedStore (docs : List String) : Event
  | httpGet (req : HttpRequest) : Event
  | llmGenerate (query : String) : Event
deriving Repr, DecidableEq

/-- Python str() as it occurs inside the f-strings: a str renders as
itself; the rendering of a non-string value (float repr, dict repr) is
taken as a parameter, since the embedded claims never depend on it. -/
def pyStr (render : Json → String) : Json → String
  | .str s => s
  | v => render v

/-- The weather_text f-string of the main script and test1.ipynb: the
values of weather.get for temperature_2m and wind_speed_10m, each
defaulting to "?", interpolated into the sentence; raises when weather is
not a dict. -/
def weather_text (render : Json → String) (weather : Json) :
    Except PyError String := do
  let t ← weather.get? "temperature_2m" (Json.str "?")
  let w ← weather.get? "wind_speed_10m" (Json.str "?")
  pure ("The current temperature in Paris is " ++ pyStr render t ++
    "°C with wind speed " ++ pyStr render w ++ " km/h.")

/-- The query f-string of the main script and test1.ipynb. -/
def mkQuery (wt : String) : String :=
  "Given this weather: " ++ wt ++ ", what travel tips do you have for Paris?"

/-- The main script (Steps 2 to 4) run against its environment: the split
document contents loaded from rag_docs (in os.listdir order), an HTTP
oracle, a language-model oracle standing for qa.run, and the rendering of
non-string values.  Returns the printed final response (or the exception
raised) and the ordered trace of external interactions. -/
def script (docsLoaded : List String) (http : HttpRequest → HttpResponse)
    (llm : String → String) (render : Json → String) :
    Except PyError String × List Event :=
  let req := getWeatherRequest "Paris"
  let response := http req
  match get_weather_result response with
  | .error e => (.error e, [Event.embedStore docsLoaded, Event.httpGet req])
  | .ok weather =>
    match weather_text render weather with
    | .error e => (.error e, [Event.embedStore docsLoaded, Event.httpGet req])
    | .ok wt =>
      let query := mkQuery wt
      (.ok (llm query),
       [Event.embedStore docsLoaded, Event.httpGet req,
        Event.llmGenerate query])

/-- The chain-of-thought prompt of test2.ipynb, cell 5. -/
def question : String :=
  "You are a travel assistant. A user asks: 'What should I know before " ++
  "going to Paris today?'.\nYou have access to background tips and a " ++
  "weather tool you may use if helpful.\nIf you decide to call the " ++
  "weather tool, determine the correct latitude and longitude for the " ++
  "city.\nAnswer step-by-step with reasoning."

/-- The weather_text f-string of test2.ipynb. -/
def weather_text_T2 (render : Json → String) (weather : Json) :
    Except PyError String := do
  let t ← weather.get? "temperature_2m" (Json.str "?")
  let w ← weather.get? "wind_speed_10m" (Json.str "?")
  pure ("Temperature: " ++ pyStr render t ++ "°C, Wind: " ++
    pyStr render w ++ " km/h.")

/-- The final query f-string of test2.ipynb. -/
def mkQueryT2 (wt : String) : String :=
  "The weather in Paris today is: " ++ wt ++ ".\n" ++
  "Based on this and local travel tips, what should a traveler know?"

/-- Cells 5 to 7 of test2.ipynb run against the environment: llm.invoke
for the initial free-text reasoning, the HTTP oracle, qa.run for the final
answer, and the rendering of non-string values.  Cell 6 assigns
lat, lon = 48.8566, 2.3522 without consulting the model's response.
Returns the final answer (or the exception) and the interaction trace. -/
def reasoningRun (llm : String → String) (qaLlm : String → String)
    (http : HttpRequest → HttpResponse) (render : Json → String) :
    Except PyError String × List Event :=
  let response := llm question
  let lat : ℚ := 48.8566
  let lon : ℚ := 2.3522
  let req := getWeatherRequestT2 lat lon
  let httpResponse := http req
  match get_weather_result_T2 httpResponse with
  | .error e => (.error e, [Event.llmGenerate question, Event.httpGet req])
  | .ok weather =>
    match weather_text_T2 render weather with
    | .error e => (.error e, [Event.llmGenerate question, Event.httpGet req])
    | .ok wt =>
      let query := mkQueryT2 wt
      (.ok (qaLlm query),
       [Event.llmGenerate question, Event.httpGet req,
        Event.llmGenerate query])

/-- A constant HTTP oracle answering 404 with a null body. -/
def http404 : HttpRequest → HttpResponse :=
  fun _ => { status_code := 404, body := Json.null }

/-- A constant HTTP oracle answering 200 with an empty-object body. -/
def httpEmptyObj : HttpRequest → HttpResponse :=
  fun _ => { status_code := 200, body := Json.obj [] }

/-- A current object with concrete temperature and wind readings. -/
def weatherCurrent : Json :=
  Json.obj [("temperature_2m", Json.num 20), ("wind_speed_10m", Json.num 10)]

/-- A constant HTTP oracle answering 200 with a body whose current field
holds weatherCurrent. -/
def httpCurrent : HttpRequest → HttpResponse :=
  fun _ => { status_code := 200, body := Json.obj [("current", weatherCurrent)] }

/-- Rendering weather_text over an object body never raises: both gets
succeed, with default "?" for a missing key. -/
theorem weather_text_obj (render : Json → String)
    (fs : List (String × Json)) :
    weather_text render (Json.obj fs) =
      .ok ("The current temperature in Paris is " ++
        pyStr render ((fs.lookup "temperature_2m").getD (Json.str "?")) ++
        "°C with wind speed " ++
        pyStr render ((fs.lookup "wind_speed_10m").getD (Json.str "?")) ++
        " km/h.") := rfl

/-- Rendering test2's weather_text over an object body never raises. -/
theorem weather_text_T2_obj (render : Json → String)
    (fs : List (String × Json)) :
    weather_text_T2 render (Json.obj fs) =
      .ok ("Temperature: " ++
        pyStr render ((fs.lookup "temperature_2m").getD (Json.str "?")) ++
        "°C, Wind: " ++
        pyStr render ((fs.lookup "wind_speed_10m").getD (Json.str "?")) ++
        " km/h.") := rfl

/-- C6: get_weather performs no retries and no backoff: each invocation,
in either variant and against any HTTP oracle (so in particular after a
failed, non-200 response), issues exactly the one request and returns
without issuing a second one. -/
theorem get_weather_exactly_one_request
    (city : String) (lat lon : ℚ) (http : HttpRequest → HttpResponse) :
    (get_weather city http).2 = [getWeatherRequest city] ∧
    (get_weather_T2 lat lon http).2 = [getWeatherRequestT2 lat lon] :=
  ⟨rfl, rfl⟩

/-- C2 counterexample: test2.ipynb's get_weather does consult its
arguments: called with latitude 0 and longitude 0 it issues a request
whose latitude parameter is 0 rather than 48.8566, so two calls of that
variant with different arguments issue different requests. -/
theorem get_weather_T2_args_change_request :
    getWeatherRequestT2 0 0 ≠ getWeatherRequestT2 48.8566 2.3522 ∧
    (get_weather_T2 0 0 http404).2 ≠
      (get_weather_T2 48.8566 2.3522 http404).2 := by
  have hq : (0 : ℚ) ≠ 48.8566 := by norm_num
  have key : getWeatherRequestT2 0 0 ≠ getWeatherRequestT2 48.8566 2.3522 := by
    intro hEq
    simp [getWeatherRequestT2] at hEq
    exact hq hEq.1
  exact ⟨key, fun hEq => key (by simpa [get_weather_T2] using hEq)⟩

/-- C2 amended: in the main script and test1.ipynb the weather tool call
is a single HTTP GET with the city's coordinates hardcoded: every value of
the city argument yields the identical request, carrying latitude 48.8566
and longitude 2.3522.  In test2.ipynb the request carries get_weather's
lat/lon arguments instead, and the hardcoding sits at its sole call site,
which passes exactly 48.8566 and 2.3522, so the one request that variant
actually issues is that same fixed request. -/
theorem get_weather_request_ignores_city
    (c1 c2 : String) (llm qaLlm : String → String)
    (http : HttpRequest → HttpResponse) (render : Json → String) :
    getWeatherRequest c1 = getWeatherRequest c2 ∧
    getWeatherRequest c1 = getWeatherRequestT2 48.8566 2.3522 ∧
    (reasoningRun llm qaLlm http render).2.take 2 =
      [Event.llmGenerate question,
       Event.httpGet (getWeatherRequestT2 48.8566 2.3522)] := by
  refine ⟨rfl, rfl, ?_⟩
  simp only [reasoningRun]
  split
  · rfl
  · split <;> rfl

/-- C4: in the reasoning variant the coordinates passed to get_weather in
the follow-up call are the hardcoded constants 48.8566 and 2.3522,
independent of the model's free-text response: runs against two arbitrary
llm.invoke oracles coincide entirely, and in every run the second external
interaction is the weather tool call with that fixed request. -/
theorem reasoning_tool_call_fixed_args
    (llm1 llm2 qaLlm : String → String) (http : HttpRequest → HttpResponse)
    (render : Json → String) :
    reasoningRun llm1 qaLlm http render = reasoningRun llm2 qaLlm http render ∧
    (reasoningRun llm1 qaLlm http render).2[1]? =
      some (Event.httpGet (getWeatherRequestT2 48.8566 2.3522)) := by
  constructor
  · rfl
  · simp only [reasoningRun]
    split
    · rfl
    · split <;> rfl

/-- C3: every invocation of get_weather issues a GET request to the fixed
endpoint https://api.open-meteo.com/v1/forecast whose parameters are
exactly latitude, longitude, current="temperature_2m,wind_speed_10m",
temperature_unit="celsius" and windspeed_unit="kmh" (latitude and
longitude being the hardcoded Paris coordinates in the city variant and
the arguments in the test2 variant), and on a 200 response whose JSON
body carries a current object, that object is the result. -/
theorem get_weather_request_contract
    (city : String) (lat lon : ℚ) (http : HttpRequest → HttpResponse)
    (fields : List (String × Json)) (cur : Json)
    (hresp : http (getWeatherRequest city) =
      { status_code := 200, body := Json.obj fields })
    (hcur : fields.lookup "current" = some cur) :
    (get_weather city http).2 =
      [{ method := "GET"
         url := "https://api.open-meteo.com/v1/forecast"
         params := [
           ("latitude", ParamValue.num 48.8566),
           ("longitude", ParamValue.num 2.3522),
           ("current", ParamValue.str "temperature_2m,wind_speed_10m"),
           ("temperature_unit", ParamValue.str "celsius"),
           ("windspeed_unit", ParamValue.str "kmh")] }] ∧
    (get_weather_T2 lat lon http).2 =
      [{ method := "GET"
         url := "https://api.open-meteo.com/v1/forecast"
         params := [
           ("latitude", ParamValue.num lat),
           ("longitude", ParamValue.num lon),
           ("current", ParamValue.str "temperature_2m,wind_speed_10m"),
           ("temperature_unit", ParamValue.str "celsius"),
           ("windspeed_unit", ParamValue.str "kmh")] }] ∧
    (get_weather city http).1 = .ok cur := by
  refine ⟨rfl, rfl, ?_⟩
  simp [get_weather, get_weather_result, hresp, Json.get?, hcur]

/-- C3 witness: against an oracle answering 200 with a body whose current
field is weatherCurrent, get_weather returns exactly weatherCurrent. -/
theorem get_weather_request_contract_witness :
    httpCurrent (getWeatherRequest "Paris") =
      { status_code := 200, body := Json.obj [("current", weatherCurrent)] } ∧
    (get_weather "Paris" httpCurrent).1 = .ok weatherCurrent :=
  ⟨rfl, (get_weather_request_contract "Paris" 0 0 httpCurrent
    [("current", weatherCurrent)] weatherCurrent rfl rfl).2.2⟩

/-- C1 counterexample: a 200 response whose body's current object happens
to equal the error marker dict makes get_weather return the error marker
dict even though the status code is 200: the returned value being the
error marker does not imply a non-200 status. -/
theorem get_weather_error_marker_despite_200 :
    (HttpResponse.mk 200 (Json.obj [("current", errorMarker)])).status_code
      = 200 ∧
    get_weather_result
      (HttpResponse.mk 200 (Json.obj [("current", errorMarker)])) =
      .ok errorMarker :=
  ⟨rfl, rfl⟩

/-- C1 amended: get_weather returns the error marker dict whenever the
status code is not 200, regardless of the body; and on a 200 response with
an object body it returns the current object parsed from the body (the
empty dict when the current key is absent) — a value that a crafted body
can make coincide with the error marker, so the correspondence holds from
status to returned value but not conversely. -/
theorem get_weather_error_iff_amended
    (response : HttpResponse) (fields : List (String × Json)) :
    (response.status_code ≠ 200 →
      get_weather_result response = .ok errorMarker) ∧
    (response.status_code = 200 → response.body = Json.obj fields →
      get_weather_result response =
        .ok ((fields.lookup "current").getD (Json.obj []))) := by
  constructor
  · intro h
    simp [get_weather_result, h]
  · intro h hb
    simp [get_weather_result, h, hb, Json.get?]

/-- C1 amended, witness: a 404 response yields the error marker dict and a
200 response with an empty-object body yields the empty dict. -/
theorem get_weather_error_iff_amended_witness :
    get_weather_result (HttpResponse.mk 404 Json.null) = .ok errorMarker ∧
    get_weather_result (HttpResponse.mk 200 (Json.obj [])) =
      .ok (Json.obj []) :=
  ⟨(get_weather_error_iff_amended (HttpResponse.mk 404 Json.null) []).1
      (by decide),
   (get_weather_error_iff_amended (HttpResponse.mk 200 (Json.obj [])) []).2
      rfl rfl⟩

/-- C9 counterexample: a 200 response whose JSON body is the number 5 — a
body containing no current key — makes get_weather raise AttributeError
at response.json().get rather than return the empty dict: the success
branch is not total in the shape of the JSON body. -/
theorem get_weather_200_nonobject_raises :
    get_weather_result (HttpResponse.mk 200 (Json.num 5)) =
      .error (PyError.attributeError "object has no attribute get") := rfl

/-- C9 amended: for every 200 response whose JSON body is an object
without a current key, get_weather returns the empty dict rather than
raising; the success branch is total in the shape of object-shaped JSON
bodies, though it raises AttributeError on non-object bodies. -/
theorem get_weather_200_missing_current
    (city : String) (http : HttpRequest → HttpResponse)
    (fields : List (String × Json))
    (hresp : http (getWeatherRequest city) =
      { status_code := 200, body := Json.obj fields })
    (hnone : fields.lookup "current" = none) :
    (get_weather city http).1 = .ok (Json.obj []) := by
  simp [get_weather, get_weather_result, hresp, Json.get?, hnone]

/-- C9 amended, witness: a 200 response with an empty-object body makes
get_weather return the empty dict. -/
theorem get_weather_200_missing_current_witness :
    (get_weather "Paris" httpEmptyObj).1 = .ok (Json.obj []) :=
  get_weather_200_missing_current "Paris" httpEmptyObj [] rfl rfl

/-- C5: the main script's observable behavior is exactly three external
interactions, performed sequentially in this order: the embed-and-store of
the loaded documents, the HTTP weather fetch, and the prompt-plus-generate
call on the built query — provided get_weather hands back a dict, as it
does on every non-200 response and on every 200 response whose body is
well shaped; no interaction occurs out of this order and the script's
output is the model's answer to that query. -/
theorem script_three_interactions_in_order
    (docsLoaded : List String) (http : HttpRequest → HttpResponse)
    (llm : String → String) (render : Json → String)
    (hok : ∃ wfields,
      get_weather_result (http (getWeatherRequest "Paris")) =
        .ok (Json.obj wfields)) :
    ∃ q, (script docsLoaded http llm render).2 =
        [Event.embedStore docsLoaded,
         Event.httpGet (getWeatherRequest "Paris"),
         Event.llmGenerate q] ∧
      (script docsLoaded http llm render).1 = .ok (llm q) := by
  obtain ⟨wfields, hw⟩ := hok
  refine ⟨mkQuery ("The current temperature in Paris is " ++
    pyStr render ((wfields.lookup "temperature_2m").getD (Json.str "?")) ++
    "°C with wind speed " ++
    pyStr render ((wfields.lookup "wind_speed_10m").getD (Json.str "?")) ++
    " km/h."), ?_, ?_⟩ <;>
  simp [script, hw, weather_text_obj]

/-- C5 witness: with no loaded documents, the 200/empty-object HTTP oracle
and constant model answers, the script's trace is exactly the three
interactions in order. -/
theorem script_three_interactions_in_order_witness :
    ∃ q, (script [] httpEmptyObj (fun _ => "ok") (fun _ => "")).2 =
        [Event.embedStore [], Event.httpGet (getWeatherRequest "Paris"),
         Event.llmGenerate q] ∧
      (script [] httpEmptyObj (fun _ => "ok") (fun _ => "")).1 = .ok "ok" :=
  script_three_interactions_in_order [] httpEmptyObj (fun _ => "ok")
    (fun _ => "") ⟨[], rfl⟩

/-- C8: when the dict returned by get_weather lacks temperature_2m or
wind_speed_10m, weather_text substitutes "?" for each missing value; in
particular after an API failure (non-200 status) the returned error marker
dict lacks both keys, both readings render as "?", and the script still
builds the query and calls the QA chain on it, completing without an
exception. -/
theorem api_failure_pipeline_continues
    (docsLoaded : List String) (http : HttpRequest → HttpResponse)
    (llm : String → String) (render : Json → String)
    (wfields : List (String × Json))
    (ht : wfields.lookup "temperature_2m" = none)
    (hwind : wfields.lookup "wind_speed_10m" = none)
    (hfail : (http (getWeatherRequest "Paris")).status_code ≠ 200) :
    weather_text render (Json.obj wfields) =
      .ok "The current temperature in Paris is ?°C with wind speed ? km/h." ∧
    (script docsLoaded http llm render).1 =
      .ok (llm (mkQuery
        "The current temperature in Paris is ?°C with wind speed ? km/h.")) ∧
    (script docsLoaded http llm render).2 =
      [Event.embedStore docsLoaded,
       Event.httpGet (getWeatherRequest "Paris"),
       Event.llmGenerate (mkQuery
         "The current temperature in Paris is ?°C with wind speed ? km/h.")] := by
  have hres : get_weather_result (http (getWeatherRequest "Paris")) =
      .ok errorMarker := by
    simp [get_weather_result, hfail]
  have hwt : weather_text render errorMarker =
      .ok "The current temperature in Paris is ?°C with wind speed ? km/h." :=
    rfl
  refine ⟨?_, ?_, ?_⟩
  · rw [weather_text_obj, ht, hwind]
    rfl
  · simp [script, hres, hwt]
  · simp [script, hres, hwt]

/-- C8 witness: against the constant 404 oracle the script completes,
rendering both readings as "?" inside the query handed to the QA chain. -/
theorem api_failure_pipeline_continues_witness :
    weather_text (fun _ => "") (Json.obj []) =
      .ok "The current temperature in Paris is ?°C with wind speed ? km/h." ∧
    (script [] http404 (fun q => q) (fun _ => "")).1 =
      .ok (mkQuery
        "The current temperature in Paris is ?°C with wind speed ? km/h.") :=
  have h := api_failure_pipeline_continues [] http404 (fun q => q)
    (fun _ => "") [] rfl rfl (by decide)
  ⟨h.1, h.2.1⟩

/-- C7: the setup writes exactly the three files rag_docs/doc_0.txt,
rag_docs/doc_1.txt and rag_docs/doc_2.txt, file i holding the i-th element
of the rag_docs list, and nothing else: from any starting filesystem the
ordered write trace is exactly those three writes, and run on the empty
filesystem it leaves exactly the rag_docs directory and those three
files. -/
theorem setup_writes_exactly_three_docs (fs : Fs) :
    (setupStep fs).2 =
      [(docPath 0, tip0), (docPath 1, tip1), (docPath 2, tip2)] ∧
    rag_docs = [tip0, tip1, tip2] ∧
    docPath 0 = "rag_docs/doc_0.txt" ∧
    docPath 1 = "rag_docs/doc_1.txt" ∧
    docPath 2 = "rag_docs/doc_2.txt" ∧
    (setupStep (Fs.mk [] [])).1 =
      Fs.mk ["rag_docs"]
        [(docPath 0, tip0), (docPath 1, tip1), (docPath 2, tip2)] :=
  ⟨rfl, rfl, rfl, rfl, rfl, rfl⟩

/-- Writing a file leaves the directory set unchanged. -/
theorem writeFile_dirs (fs : Fs) (p c : String) :
    (writeFile fs p c).dirs = fs.dirs := rfl

/-- The directory exists after makedirs. -/
theorem mem_makedirs (fs : Fs) (d : String) : d ∈ (makedirs fs d).dirs := by
  by_cases h : d ∈ fs.dirs <;> simp [makedirs, h]

/-- makedirs with exist_ok does nothing when the directory exists. -/
theorem makedirs_of_mem (fs : Fs) (d : String) (h : d ∈ fs.dirs) :
    makedirs fs d = fs := by
  simp [makedirs, h]

/-- After setFile, the written path is bound to the written contents. -/
theorem lookup_setFile_self : ∀ (l : List (String × String)) (p c : String),
    (setFile l p c).lookup p = some c
  | [], p, c => by simp [setFile, List.lookup]
  | (q, d) :: rest, p, c => by
    by_cases h : q = p
    · subst h
      simp [setFile, List.lookup]
    · have hpq : (p == q) = false := beq_false_of_ne (Ne.symm h)
      simp [setFile, List.lookup, h, hpq, lookup_setFile_self rest p c]

/-- setFile at one path does not disturb the binding of another. -/
theorem lookup_setFile_ne : ∀ (l : List (String × String)) (p q c : String),
    p ≠ q → (setFile l q c).lookup p = l.lookup p
  | [], p, q, c, h => by
    have hpq : (p == q) = false := beq_false_of_ne h
    simp [setFile, List.lookup, hpq]
  | (k, d) :: rest, p, q, c, h => by
    by_cases hk : k = q
    · subst hk
      have hpk : (p == k) = false := beq_false_of_ne h
      simp [setFile, List.lookup, hpk]
    · simp only [setFile, if_neg hk, List.lookup,
        lookup_setFile_ne rest p q c h]

/-- Rewriting a path with the contents it already holds changes nothing. -/
theorem setFile_of_lookup : ∀ (l : List (String × String)) (p c : String),
    l.lookup p = some c → setFile l p c = l
  | [], p, c, h => by simp [List.lookup] at h
  | (q, d) :: rest, p, c, h => by
    by_cases hq : q = p
    · subst hq
      simp [List.lookup] at h
      simp [setFile, h]
    · have hpq : (p == q) = false := beq_false_of_ne (Ne.symm hq)
      have h' : rest.lookup p = some c := by
        simpa [List.lookup, hpq] using h
      simp [setFile, hq, setFile_of_lookup rest p c h']

/-- The filesystem after the setup step, spelled out: the rag_docs
directory is ensured and the three document files are written in order. -/
theorem setupStep_fst (fs : Fs) :
    (setupStep fs).1 =
      writeFile (writeFile (writeFile (makedirs fs "rag_docs")
        (docPath 0) tip0) (docPath 1) tip1) (docPath 2) tip2 := rfl

/-- Rewriting a file with the contents it already holds is the identity on
the filesystem. -/
theorem writeFile_of_lookup (fs : Fs) (p c : String)
    (h : fs.files.lookup p = some c) : writeFile fs p c = fs := by
  show Fs.mk fs.dirs (setFile fs.files p c) = fs
  rw [setFile_of_lookup fs.files p c h]

/-- C10: the document-writing step is idempotent: the directory already
exists on the second run (makedirs with exist_ok is a no-op), each file is
reopened in write mode and rewritten with its existing contents, and the
filesystem after running the setup twice in a row is exactly the
filesystem after running it once. -/
theorem setup_idempotent (fs : Fs) :
    (setupStep (setupStep fs).1).1 = (setupStep fs).1 := by
  have h01 : docPath 0 ≠ docPath 1 := by decide
  have h02 : docPath 0 ≠ docPath 2 := by decide
  have h12 : docPath 1 ≠ docPath 2 := by decide
  rw [setupStep_fst (setupStep fs).1, setupStep_fst fs]
  set F := writeFile (writeFile (writeFile (makedirs fs "rag_docs")
    (docPath 0) tip0) (docPath 1) tip1) (docPath 2) tip2 with hFdef
  have hmem : "rag_docs" ∈ F.dirs := by
    show "rag_docs" ∈ (makedirs fs "rag_docs").dirs
    exact mem_makedirs fs "rag_docs"
  have l0 : F.files.lookup (docPath 0) = some tip0 := by
    show (setFile (setFile (setFile (makedirs fs "rag_docs").files
      (docPath 0) tip0) (docPath 1) tip1) (docPath 2) tip2).lookup
        (docPath 0) = some tip0
    rw [lookup_setFile_ne _ _ _ _ h02, lookup_setFile_ne _ _ _ _ h01,
      lookup_setFile_self]
  have l1 : F.files.lookup (docPath 1) = some tip1 := by
    show (setFile (setFile (setFile (makedirs fs "rag_docs").files
      (docPath 0) tip0) (docPath 1) tip1) (docPath 2) tip2).lookup
        (docPath 1) = some tip1
    rw [lookup_setFile_ne _ _ _ _ h12, lookup_setFile_self]
  have l2 : F.files.lookup (docPath 2) = some tip2 := lookup_setFile_self _ _ _
  rw [makedirs_of_mem F "rag_docs" hmem,
    writeFile_of_lookup F (docPath 0) tip0 l0,
    writeFile_of_lookup F (docPath 1) tip1 l1,
    writeFile_of_lookup F (docPath 2) tip2 l2]

end Notebook1
